import Mathlib

/-!
Shallow embedding of the chat-turn lifecycle of `src/components/ChatWindow.tsx`.

The component holds four state hooks (`messages`, `loading`, `inputText`,
`pdfFile`) plus the hidden file picker's DOM `value`.  The turn dispatcher
`sendMessage` guards on `!userQuery.trim() && !pdfFile`, appends one optimistic
user message, sets `loading`, performs one `fetch`, and in every settled path
appends exactly one bot message and resets `loading` in a `finally`.  We embed
the dispatcher as a pure state-transition function split at its `await` point:
`sendMessageStart` is the synchronous prefix, `sendMessageSettle` the
continuation once the network call settles, and `sendMessage` the whole run
against a given network outcome, also returning how many HTTP requests were
issued.  `handleSend` and `handleFileSelect` are embedded the same way.
-/

namespace ChatWindow

/-- A DOM `File` as the component observes it: its display `name` and its
declared MIME `type`. -/
structure File where
  name : String
  type : String
deriving DecidableEq

/-- The `sender: "user" | "bot"` tag of `ChatMessageType`. -/
inductive Sender where
  | user
  | bot
deriving DecidableEq

/-- `type ChatMessageType = { sender: "user" | "bot"; text: string; pdf?: string }`. -/
structure ChatMessageType where
  sender : Sender
  text : String
  pdf : Option String := none
deriving DecidableEq

/-- The component's state: the `messages`, `loading`, `inputText` and `pdfFile`
hooks, together with the hidden file picker's selection string
(`fileInputRef.current.value`). -/
structure ChatState where
  messages : List ChatMessageType
  loading : Bool
  inputText : String
  pdfFile : Option File
  fileInputValue : String
deriving DecidableEq

/-- JavaScript `String.prototype.trim()`: strip whitespace from both ends. -/
def jsTrim (s : String) : String :=
  String.mk (((s.data.dropWhile Char.isWhitespace).reverse.dropWhile
    Char.isWhitespace).reverse)

/-- What `await fetch(...)` / `await res.json()` can come back with, as far as
the component observes it: an HTTP-ok response whose parsed body is
`{ response?: string }`, a non-success HTTP status (`res.ok` false, which the
code turns into a thrown `Error`), or a transport/parsing exception. -/
inductive NetOutcome where
  | ok (response : Option String)
  | httpError (status : Nat)
  | exception
deriving DecidableEq

/-- JavaScript `a || b` for `a : string | undefined`: both `undefined` and the
empty string are falsy, so both select `b`. -/
def jsOrElse (a : Option String) (b : String) : String :=
  match a with
  | some t => if t == "" then b else t
  | none => b

/-- The bot error message appended by the `catch` branch — reached both on a
thrown transport/parsing error and on the `!res.ok` `throw`. -/
def errorText : String := "⚠️ Error connecting to server."

/-- The fallback text used when `data.response` is falsy. -/
def noResponseText : String := "⚠️ No response field in server reply."

/-- Text of the single bot message appended once the call settles:
`data.response || noResponseText` on an ok response; otherwise `errorText`
from the `catch` branch (a non-ok status throws into that same `catch`). -/
def botText : NetOutcome → String
  | .ok response => jsOrElse response noResponseText
  | .httpError _ => errorText
  | .exception => errorText

/-- The optimistic user message:
`{ sender: "user", text: userQuery, pdf: pdfFile?.name }`. -/
def userMsg (userQuery : String) (pdfFile : Option File) : ChatMessageType :=
  { sender := .user, text := userQuery, pdf := pdfFile.map File.name }

/-- The bot message appended when the call settles. -/
def botMsg (o : NetOutcome) : ChatMessageType :=
  { sender := .bot, text := botText o, pdf := none }

/-- The synchronous prefix of `sendMessage` past its guard: append the user
message and set `loading` to true, up to the first `await`. -/
def sendMessageStart (userQuery : String) (pdfFile : Option File)
    (s : ChatState) : ChatState :=
  { s with messages := s.messages ++ [userMsg userQuery pdfFile], loading := true }

/-- The continuation of `sendMessage` once the network call settles: every path
appends one bot message, and the `finally` resets `loading` to false. -/
def sendMessageSettle (o : NetOutcome) (s : ChatState) : ChatState :=
  { s with messages := s.messages ++ [botMsg o], loading := false }

/-- `sendMessage(userQuery, pdfFile)` run to completion against a given network
outcome.  Returns the final state and the number of HTTP requests issued.
The guard is `if (!userQuery.trim() && !pdfFile) return;`. -/
def sendMessage (userQuery : String) (pdfFile : Option File) (o : NetOutcome)
    (s : ChatState) : ChatState × Nat :=
  if jsTrim userQuery == "" && pdfFile.isNone then (s, 0)
  else (sendMessageSettle o (sendMessageStart userQuery pdfFile s), 1)

/-- The composer-clearing statements of `handleSend`: `setInputText("")`,
`setPdfFile(null)`, `fileInputRef.current.value = ""`. -/
def clearComposer (s : ChatState) : ChatState :=
  { s with inputText := "", pdfFile := none, fileInputValue := "" }

/-- The synchronous part of `handleSend`: when `inputText.trim() || pdfFile`,
run the synchronous prefix of `sendMessage(inputText, pdfFile)` and then clear
the composer (the clears run before the network call settles). -/
def handleSendStart (s : ChatState) : ChatState :=
  if jsTrim s.inputText != "" || s.pdfFile.isSome then
    clearComposer (sendMessageStart s.inputText s.pdfFile s)
  else s

/-- `handleSend` run to completion: its synchronous part, then the continuation
of `sendMessage` once the call settles.  Returns the final state and the
number of HTTP requests issued. -/
def handleSend (o : NetOutcome) (s : ChatState) : ChatState × Nat :=
  if jsTrim s.inputText != "" || s.pdfFile.isSome then
    (sendMessageSettle o (clearComposer (sendMessageStart s.inputText s.pdfFile s)), 1)
  else (s, 0)

/-- `handleFileSelect`: take `e.target.files?.[0]` and stage it only when its
declared type is `"application/pdf"`; otherwise do nothing at all. -/
def handleFileSelect (files : List File) (s : ChatState) : ChatState :=
  match files.head? with
  | some file =>
      if file.type == "application/pdf" then { s with pdfFile := some file } else s
  | none => s

/-- Initial component state: all hooks at their `useState` defaults. -/
def s0 : ChatState :=
  { messages := [], loading := false, inputText := "", pdfFile := none,
    fileInputValue := "" }

/-- A sample staged PDF file. -/
def samplePdf : File := { name := "report.pdf", type := "application/pdf" }

/-- A sample state with whitespace-only composed text and no staged file. -/
def sWs : ChatState :=
  { messages := [], loading := false, inputText := "   ", pdfFile := none,
    fileInputValue := "" }

/-- A sample state with whitespace-only text and a staged PDF. -/
def sStaged : ChatState :=
  { messages := [], loading := false, inputText := "  ", pdfFile := some samplePdf,
    fileInputValue := "C:\\fakepath\\report.pdf" }

/-- The `sendMessage` guard condition is false exactly when a turn is
dispatched: the text trims non-empty or a file is staged. -/
theorem send_guard_eq_false {q : String} {f : Option File}
    (h : ¬(jsTrim q = "" ∧ f = none)) :
    (jsTrim q == "" && f.isNone) = false := by
  cases f <;> simp_all

/-- The `handleSend` guard is the negation of the `sendMessage` guard. -/
theorem handle_guard_eq_true {s : ChatState}
    (h : ¬(jsTrim s.inputText = "" ∧ s.pdfFile = none)) :
    (jsTrim s.inputText != "" || s.pdfFile.isSome) = true := by
  cases hf : s.pdfFile <;> simp_all

/-- C1: for every dispatched turn (text non-empty after trimming or a file
staged), exactly one user message is appended synchronously, and exactly one
bot message is appended when the network call settles — the final message list
is the old one followed by precisely the user message and then the bot
message, for every outcome. -/
theorem c1_dispatch_appends_one_user_then_one_bot
    (q : String) (f : Option File) (o : NetOutcome) (s : ChatState)
    (h : ¬(jsTrim q = "" ∧ f = none)) :
    (sendMessageStart q f s).messages = s.messages ++ [userMsg q f] ∧
    sendMessage q f o s
      = ({ s with
            messages := s.messages ++ [userMsg q f, botMsg o],
            loading := false }, 1) := by
  refine ⟨rfl, ?_⟩
  simp [sendMessage, send_guard_eq_false h, sendMessageStart, sendMessageSettle]

/-- Witness for C1 at a concrete dispatched turn. -/
theorem c1_witness :
    ¬(jsTrim "hello" = "" ∧ (none : Option File) = none) ∧
    ((sendMessageStart "hello" none s0).messages
        = s0.messages ++ [userMsg "hello" none] ∧
      sendMessage "hello" none (.ok (some "hi there")) s0
        = ({ s0 with
              messages := s0.messages
                ++ [userMsg "hello" none, botMsg (.ok (some "hi there"))],
              loading := false }, 1)) :=
  ⟨by decide,
    c1_dispatch_appends_one_user_then_one_bot "hello" none (.ok (some "hi there"))
      s0 (by decide)⟩

/-- C2: for every dispatched call, `loading` is true while the call is in
flight (right after the synchronous prefix), and once the call settles —
whatever the outcome — the resulting state has `loading` false, set by the
single `finally`-modelled settle step. -/
theorem c2_pending_flag_lifecycle
    (q : String) (f : Option File) (o : NetOutcome) (s : ChatState)
    (h : ¬(jsTrim q = "" ∧ f = none)) :
    (sendMessageStart q f s).loading = true ∧
    (sendMessage q f o s).1 = sendMessageSettle o (sendMessageStart q f s) ∧
    (sendMessage q f o s).1.loading = false := by
  refine ⟨rfl, ?_, ?_⟩ <;>
    simp [sendMessage, send_guard_eq_false h, sendMessageSettle]

/-- Witness for C2 at a concrete dispatched turn with an exception outcome. -/
theorem c2_witness :
    ¬(jsTrim "hello" = "" ∧ (none : Option File) = none) ∧
    ((sendMessageStart "hello" none s0).loading = true ∧
      (sendMessage "hello" none .exception s0).1
        = sendMessageSettle .exception (sendMessageStart "hello" none s0) ∧
      (sendMessage "hello" none .exception s0).1.loading = false) :=
  ⟨by decide, c2_pending_flag_lifecycle "hello" none .exception s0 (by decide)⟩

/-- C3: when the text trims to empty and no file is staged, both the dispatcher
and `handleSend` are complete no-ops: the state is returned unchanged and zero
HTTP requests are issued. -/
theorem c3_empty_input_is_noop (o : NetOutcome) (s : ChatState)
    (h : jsTrim s.inputText = "" ∧ s.pdfFile = none) :
    sendMessage s.inputText s.pdfFile o s = (s, 0) ∧ handleSend o s = (s, 0) := by
  obtain ⟨h1, h2⟩ := h
  constructor <;> simp [sendMessage, handleSend, h1, h2]

/-- Witness for C3 at a whitespace-only composer with no staged file. -/
theorem c3_witness :
    (jsTrim sWs.inputText = "" ∧ sWs.pdfFile = none) ∧
    (sendMessage sWs.inputText sWs.pdfFile .exception sWs = (sWs, 0) ∧
      handleSend .exception sWs = (sWs, 0)) :=
  ⟨by decide, c3_empty_input_is_noop .exception sWs (by decide)⟩

/-- C4: both recognized failure kinds are terminal — the turn issues exactly one
request, appends exactly one bot message whose text is the error text, and
ends with `loading` false.  A non-success HTTP status (any status) and a
transport/parsing exception both surface the same `errorText` bot message. -/
theorem c4_failures_terminal_bot_error
    (q : String) (f : Option File) (status : Nat) (s : ChatState)
    (h : ¬(jsTrim q = "" ∧ f = none)) :
    sendMessage q f (.httpError status) s
      = ({ s with
            messages := s.messages
              ++ [userMsg q f, { sender := .bot, text := errorText, pdf := none }],
            loading := false }, 1) ∧
    sendMessage q f .exception s
      = ({ s with
            messages := s.messages
              ++ [userMsg q f, { sender := .bot, text := errorText, pdf := none }],
            loading := false }, 1) := by
  constructor <;>
    simp [sendMessage, send_guard_eq_false h, sendMessageStart, sendMessageSettle,
      botMsg, botText]

/-- Witness for C4 at a concrete turn with a simulated HTTP 500. -/
theorem c4_witness :
    ¬(jsTrim "hello" = "" ∧ (none : Option File) = none) ∧
    (sendMessage "hello" none (.httpError 500) s0
        = ({ s0 with
              messages := s0.messages
                ++ [userMsg "hello" none,
                    { sender := .bot, text := errorText, pdf := none }],
              loading := false }, 1) ∧
      sendMessage "hello" none .exception s0
        = ({ s0 with
              messages := s0.messages
                ++ [userMsg "hello" none,
                    { sender := .bot, text := errorText, pdf := none }],
              loading := false }, 1)) :=
  ⟨by decide, c4_failures_terminal_bot_error "hello" none 500 s0 (by decide)⟩

/-- C5 counterexample: the body `{ "response": "" }` does contain a textual
reply field (the empty string), yet the appended bot message's text is the
fallback `noResponseText`, not that field's value — `data.response || fallback`
treats the empty string as falsy. -/
theorem c5_counterexample_empty_reply_field :
    (sendMessage "hi" none (.ok (some "")) s0).1.messages
      = [userMsg "hi" none,
         { sender := .bot, text := noResponseText, pdf := none }] ∧
    noResponseText ≠ "" := by
  constructor <;> decide

/-- C5 (amended): for a success response whose JSON body contains a non-empty
textual reply field, the appended bot message's text equals that field's value
exactly. -/
theorem c5_nonempty_reply_verbatim
    (q : String) (f : Option File) (r : String) (s : ChatState)
    (hr : r ≠ "") (h : ¬(jsTrim q = "" ∧ f = none)) :
    sendMessage q f (.ok (some r)) s
      = ({ s with
            messages := s.messages
              ++ [userMsg q f, { sender := .bot, text := r, pdf := none }],
            loading := false }, 1) := by
  have hr' : (r == "") = false := by simp [hr]
  simp [sendMessage, send_guard_eq_false h, sendMessageStart, sendMessageSettle,
    botMsg, botText, jsOrElse, hr']

/-- Witness for the amended C5 at the spec's example body. -/
theorem c5_witness :
    "Take two tablets." ≠ "" ∧
    ¬(jsTrim "hi" = "" ∧ (none : Option File) = none) ∧
    sendMessage "hi" none (.ok (some "Take two tablets.")) s0
      = ({ s0 with
            messages := s0.messages
              ++ [userMsg "hi" none,
                  { sender := .bot, text := "Take two tablets.", pdf := none }],
            loading := false }, 1) :=
  ⟨by decide, by decide,
    c5_nonempty_reply_verbatim "hi" none "Take two tablets." s0 (by decide)
      (by decide)⟩

/-- C6: a success response whose body lacks the reply field yields a bot
message carrying the fallback `noResponseText`, with the turn otherwise
completing normally. -/
theorem c6_missing_reply_fallback
    (q : String) (f : Option File) (s : ChatState)
    (h : ¬(jsTrim q = "" ∧ f = none)) :
    sendMessage q f (.ok none) s
      = ({ s with
            messages := s.messages
              ++ [userMsg q f,
                  { sender := .bot, text := noResponseText, pdf := none }],
            loading := false }, 1) := by
  simp [sendMessage, send_guard_eq_false h, sendMessageStart, sendMessageSettle,
    botMsg, botText, jsOrElse]

/-- Witness for C6 at the empty body. -/
theorem c6_witness :
    ¬(jsTrim "hi" = "" ∧ (none : Option File) = none) ∧
    sendMessage "hi" none (.ok none) s0
      = ({ s0 with
            messages := s0.messages
              ++ [userMsg "hi" none,
                  { sender := .bot, text := noResponseText, pdf := none }],
            loading := false }, 1) :=
  ⟨by decide, c6_missing_reply_fallback "hi" none s0 (by decide)⟩

/-- C7: once a send is dispatched, the synchronous part of `handleSend` already
leaves the composed text empty, the staged file cleared, and the file picker's
selection string empty — and these stay cleared after the call settles,
whatever the outcome. -/
theorem c7_composer_cleared_on_send (s : ChatState) (o : NetOutcome)
    (h : ¬(jsTrim s.inputText = "" ∧ s.pdfFile = none)) :
    (handleSendStart s).inputText = "" ∧
    (handleSendStart s).pdfFile = none ∧
    (handleSendStart s).fileInputValue = "" ∧
    (handleSend o s).1.inputText = "" ∧
    (handleSend o s).1.pdfFile = none ∧
    (handleSend o s).1.fileInputValue = "" := by
  have hg := handle_guard_eq_true h
  simp [handleSendStart, handleSend, hg, clearComposer, sendMessageStart,
    sendMessageSettle]

/-- Witness for C7 at a state with a staged PDF and whitespace text. -/
theorem c7_witness :
    ¬(jsTrim sStaged.inputText = "" ∧ sStaged.pdfFile = none) ∧
    ((handleSendStart sStaged).inputText = "" ∧
      (handleSendStart sStaged).pdfFile = none ∧
      (handleSendStart sStaged).fileInputValue = "" ∧
      (handleSend (.httpError 500) sStaged).1.inputText = "" ∧
      (handleSend (.httpError 500) sStaged).1.pdfFile = none ∧
      (handleSend (.httpError 500) sStaged).1.fileInputValue = "") :=
  ⟨by decide, c7_composer_cleared_on_send sStaged (.httpError 500) (by decide)⟩

/-- C8: a selected file whose declared media type is not `application/pdf` is
silently ignored — the whole state (staged file included) is left unchanged and
no message is surfaced — while a file with the PDF media type replaces the
staged file and changes nothing else. -/
theorem c8_nonpdf_selection_ignored (f : File) (s : ChatState) :
    (f.type ≠ "application/pdf" → handleFileSelect [f] s = s) ∧
    (f.type = "application/pdf" →
      handleFileSelect [f] s = { s with pdfFile := some f }) := by
  constructor <;> intro h <;> simp [handleFileSelect, h]

/-- Witness for C8: a text file is ignored even over an existing staged PDF;
a PDF file replaces the staged file. -/
theorem c8_witness :
    ((⟨"notes.txt", "text/plain"⟩ : File).type ≠ "application/pdf" ∧
      handleFileSelect [⟨"notes.txt", "text/plain"⟩] sStaged = sStaged) ∧
    ((⟨"scan.pdf", "application/pdf"⟩ : File).type = "application/pdf" ∧
      handleFileSelect [⟨"scan.pdf", "application/pdf"⟩] s0
        = { s0 with pdfFile := some ⟨"scan.pdf", "application/pdf"⟩ }) :=
  ⟨⟨by decide,
      (c8_nonpdf_selection_ignored ⟨"notes.txt", "text/plain"⟩ sStaged).1
        (by decide)⟩,
    ⟨rfl, (c8_nonpdf_selection_ignored ⟨"scan.pdf", "application/pdf"⟩ s0).2 rfl⟩⟩

/-- C9: a success response whose reply field holds the empty string yields the
fallback `noResponseText` bot message, not an empty bot message — the
empty-string reply is treated exactly like a missing field. -/
theorem c9_empty_reply_treated_as_missing
    (q : String) (f : Option File) (s : ChatState)
    (h : ¬(jsTrim q = "" ∧ f = none)) :
    sendMessage q f (.ok (some "")) s
      = ({ s with
            messages := s.messages
              ++ [userMsg q f,
                  { sender := .bot, text := noResponseText, pdf := none }],
            loading := false }, 1) ∧
    botText (.ok (some "")) = botText (.ok none) := by
  refine ⟨?_, rfl⟩
  simp [sendMessage, send_guard_eq_false h, sendMessageStart, sendMessageSettle,
    botMsg, botText, jsOrElse]

/-- Witness for C9 at the body with an empty reply field. -/
theorem c9_witness :
    ¬(jsTrim "hi" = "" ∧ (none : Option File) = none) ∧
    (sendMessage "hi" none (.ok (some "")) s0
        = ({ s0 with
              messages := s0.messages
                ++ [userMsg "hi" none,
                    { sender := .bot, text := noResponseText, pdf := none }],
              loading := false }, 1) ∧
      botText (.ok (some "")) = botText (.ok none)) :=
  ⟨by decide, c9_empty_reply_treated_as_missing "hi" none s0 (by decide)⟩

/-- C10: the appended user message carries the input text verbatim, untrimmed:
a whitespace-only text with a staged file still dispatches (one request goes
out), and the user message's text is exactly that whitespace string, with the
file's display name attached. -/
theorem c10_user_text_verbatim_untrimmed
    (q : String) (file : File) (o : NetOutcome) (s : ChatState)
    (h : jsTrim q = "") :
    (sendMessageStart q (some file) s).messages
      = s.messages ++ [{ sender := .user, text := q, pdf := some file.name }] ∧
    (sendMessage q (some file) o s).1.messages
      = s.messages
          ++ [{ sender := .user, text := q, pdf := some file.name }, botMsg o] ∧
    (sendMessage q (some file) o s).2 = 1 := by
  refine ⟨rfl, ?_, ?_⟩ <;>
    simp [sendMessage, sendMessageStart, sendMessageSettle, userMsg]

/-- Witness for C10 at whitespace-only text with a staged PDF. -/
theorem c10_witness :
    jsTrim "   " = "" ∧
    ((sendMessageStart "   " (some samplePdf) s0).messages
        = s0.messages
            ++ [{ sender := .user, text := "   ", pdf := some samplePdf.name }] ∧
      (sendMessage "   " (some samplePdf) (.ok (some "done")) s0).1.messages
        = s0.messages
            ++ [{ sender := .user, text := "   ", pdf := some samplePdf.name },
                botMsg (.ok (some "done"))] ∧
      (sendMessage "   " (some samplePdf) (.ok (some "done")) s0).2 = 1) :=
  ⟨by decide,
    c10_user_text_verbatim_untrimmed "   " samplePdf (.ok (some "done")) s0
      (by decide)⟩

end ChatWindow
